import Mathlib

/-!
# Verification of the media-repository application (`app.py`)

A shallow embedding of the Flask media/document repository: extension
classification (`allowed_file`, `get_file_type_from_ext`), the database
model (`Category`, `Resource`), the upload-folder file storage, the
session-based admin gate, the startup bootstrap that seeds the default
category, and the admin routes (category creation, resource upload,
listing with a type filter, resource deletion).

Python strings become `String`, the SQLAlchemy store becomes explicit
record lists with an autoincrement counter, the uploads directory becomes
an association list from stored filename to (abstract) content, and the
signed Flask session becomes a record holding the `admin` flag.

Python's string methods are embedded as executable functions over the
character list of a `String` (`lower`, `strip`, `containsChar`,
`extAfterLastDot`), so that every definition evaluates on concrete
inputs.
-/

namespace Bangre

/-! ## String primitives (Python `str` methods used by app.py) -/

/-- Python `s.lower()`.  The extensions handled by the app are ASCII, for
which `Char.toLower` agrees with Python. -/
def lower (s : String) : String := ⟨s.data.map Char.toLower⟩

/-- Python `s.strip()`: drop leading and trailing whitespace. -/
def strip (s : String) : String :=
  ⟨((s.data.dropWhile Char.isWhitespace).reverse.dropWhile
      Char.isWhitespace).reverse⟩

/-- Python `c in s` for a single character `c`. -/
def containsChar (s : String) (c : Char) : Bool := s.data.contains c

/-- Python `s.rsplit('.', 1)[1]`: the suffix after the last `'.'`.  Only
ever used in the code under a guard that the filename contains a `'.'`,
in which case the two agree. -/
def extAfterLastDot (s : String) : String :=
  ⟨(s.data.reverse.takeWhile (fun c => c != '.')).reverse⟩

/-! ## Extension classification (app.py lines 17–22, 55–66) -/

/-- The keys of the `ALLOWED_EXTENSIONS` dict of app.py.  The code only
ever tests `in` (key membership) against the dict, so the key list is the
faithful embedding. -/
def ALLOWED_EXTENSIONS : List String :=
  ["pdf", "jpg", "jpeg", "png", "gif", "webp",
   "mp4", "avi", "mov", "mkv", "webm"]

/-- `allowed_file` (app.py line 55): the filename contains a `'.'` and its
lowercased suffix after the last `'.'` is a key of `ALLOWED_EXTENSIONS`. -/
def allowed_file (filename : String) : Bool :=
  containsChar filename '.' &&
    ALLOWED_EXTENSIONS.contains (lower (extAfterLastDot filename))

/-- `get_file_type_from_ext` (app.py lines 58–66): lowercase the
extension, return `"pdf"`, `"image"`, `"video"` or `None`. -/
def get_file_type_from_ext (ext : String) : Option String :=
  let e := lower ext
  if e = "pdf" then some "pdf"
  else if e ∈ (["jpg", "jpeg", "png", "gif", "webp"] : List String) then some "image"
  else if e ∈ (["mp4", "avi", "mov", "mkv", "webm"] : List String) then some "video"
  else none

/-- The media-type mapping exactly as the claim states it, on an
already-lowercased extension: `pdf` for `pdf`; `image` for
jpg/jpeg/png/gif/webp; `video` for mp4/avi/mov/mkv/webm; `None`
otherwise.  Written from the spec's words, to be compared with
`get_file_type_from_ext` which is written from the source. -/
def specClassify (e : String) : Option String :=
  if e = "pdf" then some "pdf"
  else if e ∈ (["jpg", "jpeg", "png", "gif", "webp"] : List String) then some "image"
  else if e ∈ (["mp4", "avi", "mov", "mkv", "webm"] : List String) then some "video"
  else none

theorem get_file_type_eq_specClassify (ext : String) :
    get_file_type_from_ext ext = specClassify (lower ext) := rfl

/-- Key membership in the allowed-extension dict coincides with the spec
classification succeeding. -/
theorem contains_eq_specClassify_isSome (e : String) :
    ALLOWED_EXTENSIONS.contains e = (specClassify e).isSome := by
  by_cases h : e ∈ ALLOWED_EXTENSIONS
  · fin_cases h <;> rfl
  · have hc : ALLOWED_EXTENSIONS.contains e = false := by
      simpa using h
    rw [hc]
    simp only [ALLOWED_EXTENSIONS, List.mem_cons, List.not_mem_nil, or_false] at h
    push_neg at h
    obtain ⟨h1, h2, h3, h4, h5, h6, h7, h8, h9, h10, h11⟩ := h
    simp [specClassify, h1, h2, h3, h4, h5, h6, h7, h8, h9, h10, h11]

/-- If an extension is a key of the allowed dict, classifying it
succeeds. -/
theorem classify_of_allowed (e : String)
    (h : ALLOWED_EXTENSIONS.contains e = true) :
    get_file_type_from_ext e ≠ none := by
  have hmem : e ∈ ALLOWED_EXTENSIONS := by simpa using h
  fin_cases hmem <;> decide

/-! ## Data model (app.py lines 33–44) -/

/-- `Category` model: integer primary key, name. -/
structure Category where
  id : Nat
  name : String
deriving DecidableEq, Repr

/-- `Resource` model: integer primary key, title, optional description,
stored filename, file type (`"pdf"`/`"image"`/`"video"`), category
foreign key. -/
structure Resource where
  id : Nat
  title : String
  description : Option String
  filename : String
  file_type : String
  category_id : Nat
deriving DecidableEq, Repr

/-- The relational store: the two tables in insertion order plus the
autoincrement counters (SQLite primary keys start at 1). -/
structure DB where
  categories : List Category
  resources : List Resource
  nextCategoryId : Nat
  nextResourceId : Nat
deriving DecidableEq, Repr

/-- The freshly created store (`db.create_all()` on a new database). -/
def emptyDB : DB := ⟨[], [], 1, 1⟩

/-- `Category.query.all()`. -/
def listCategories (db : DB) : List Category := db.categories

/-- The uploads directory: stored filename paired with abstract file
content. -/
structure Storage where
  files : List (String × Nat)
deriving DecidableEq, Repr

/-- `file.save(path)`: write content under the sanitized name,
silently overwriting an existing file of the same name. -/
def saveFile (st : Storage) (name : String) (content : Nat) : Storage :=
  ⟨(name, content) :: st.files.filter (fun kv => !(kv.1 == name))⟩

/-- `if os.path.exists(path): os.remove(path)` (app.py lines 186–187):
removing a file that is absent is a no-op, never an error. -/
def removeFile (st : Storage) (name : String) : Storage :=
  ⟨st.files.filter (fun kv => !(kv.1 == name))⟩

/-- Whether a file with the given stored name exists in the uploads
directory. -/
def hasFile (st : Storage) (name : String) : Bool :=
  st.files.any (fun kv => kv.1 == name)

/-- The whole mutable state the routes touch: database plus uploads
directory. -/
structure AppState where
  db : DB
  storage : Storage
deriving DecidableEq, Repr

/-- The Flask session as far as the app uses it: the `admin` flag
(`session['admin']`); `admin = false` models the flag being unset. -/
structure Session where
  admin : Bool
deriving DecidableEq, Repr

/-! ## Startup bootstrap (app.py lines 47–52) -/

/-- The startup seeding: if `Category.query.first()` finds nothing, add
the default category `"Général"` and commit. -/
def bootstrap (db : DB) : DB :=
  if db.categories.isEmpty then
    { db with
      categories := db.categories ++ [⟨db.nextCategoryId, "Général"⟩],
      nextCategoryId := db.nextCategoryId + 1 }
  else db

/-- How many categories carry the default name. -/
def countDefault (db : DB) : Nat :=
  (db.categories.filter (fun c => c.name == "Général")).length

/-! ## Admin login (app.py lines 101–108) -/

/-- `admin_login` POST branch: compare the submitted password with the
configured `ADMIN_PASSWORD` (environment-sourced, default `'@dmin123'`,
modelled as the parameter `adminPassword`).  On match set
`session['admin'] = True` and redirect to `/admin` (result `true`);
otherwise flash an error and re-render (result `false`). -/
def admin_login (adminPassword supplied : String) (s : Session) :
    Session × Bool :=
  if supplied = adminPassword then ({ s with admin := true }, true)
  else (s, false)

/-! ## Category creation (app.py lines 128–135) -/

/-- Outcome of the `create_category` action.  The code flashes one
combined message `'Nom invalide ou déjà utilisé.'` on failure; the
constructors record which of the two guards of
`if name and not Category.query.filter_by(name=name).first()` failed:
`invalidInput` when the stripped name is falsy (empty), `duplicateName`
when a category with that exact name already exists. -/
inductive CreateCategoryResult where
  | ok (c : Category)
  | invalidInput
  | duplicateName
deriving DecidableEq, Repr

/-- The `create_category` action: strip the submitted name; if it is
non-empty and no category with that exact name exists, add and commit;
otherwise change nothing. -/
def create_category (raw : String) (db : DB) : DB × CreateCategoryResult :=
  if strip raw = "" then (db, .invalidInput)
  else if db.categories.any (fun c => c.name == strip raw) then
    (db, .duplicateName)
  else
    ({ db with
        categories := db.categories ++ [⟨db.nextCategoryId, strip raw⟩],
        nextCategoryId := db.nextCategoryId + 1 },
     .ok ⟨db.nextCategoryId, strip raw⟩)

/-! ## Resource upload (app.py lines 138–167) -/

/-- A file part of a multipart request (werkzeug `FileStorage`): the
client-supplied filename and abstract content bytes.  In Python a
`FileStorage` is truthy iff its filename is non-empty. -/
structure UploadedFile where
  filename : String
  content : Nat
deriving DecidableEq, Repr

/-- The form fields of the `upload_resource` action; `none` models an
absent field. -/
structure UploadForm where
  title : Option String
  description : Option String
  category : Option String
  file : Option UploadedFile
deriving DecidableEq, Repr

/-- Python truthiness of `request.form.get(...)`: present and non-empty. -/
def truthyStr (o : Option String) : Bool :=
  match o with
  | none => false
  | some s => !(s == "")

/-- Python truthiness of `request.files.get('file')`: present with a
non-empty filename. -/
def truthyFile (o : Option UploadedFile) : Bool :=
  match o with
  | none => false
  | some f => !(f.filename == "")

/-- `all([title, category_id, file])` (app.py line 144). -/
def fieldsPresent (form : UploadForm) : Bool :=
  truthyStr form.title && truthyStr form.category && truthyFile form.file

/-- Modelled from the spec: `secure_filename` is werkzeug's sanitizer, an
external collaborator not in this repository; per §4.3 it "strips
directory components and unsafe characters, collapses to a
filesystem-safe token while preserving extension".  No claim depends on
the exact sanitization, only on the sanitized name being the stored
filename, so it is modelled as keeping the filesystem-safe characters. -/
def secure_filename (s : String) : String :=
  ⟨s.data.filter (fun c =>
    c.isAlphanum || c == '.' || c == '_' || c == '-')⟩

/-- The integer value of the `category` form field, when it is a
non-empty string of digits (how the persistence layer reads the posted
category id into the integer foreign-key column). -/
def parseNat? (s : String) : Option Nat :=
  if s.data ≠ [] ∧ s.data.all Char.isDigit then
    some (s.data.foldl (fun n c => n * 10 + (c.toNat - 48)) 0)
  else none

/-- Whether the `category` form field references an existing `Category`
row.  Modelled from the spec: the persistence collaborator enforces the
`ForeignKey('category.id')` declared on `Resource.category_id` (app.py
line 43) — §1 treats the storage engine as "a plain persistence
collaborator offering ... referential-integrity enforcement", and §4.2
has `createResource` fail with `InvalidReference` when the category
reference matches no existing row. -/
def categoryRefValid (db : DB) (catField : String) : Bool :=
  match parseNat? catField with
  | none => false
  | some i => db.categories.any (fun c => c.id == i)

/-- `db.session.add(Resource(...)); db.session.commit()` with the
foreign-key constraint of the store: insert the row when the category
reference is valid, fail without touching the table otherwise. -/
def createResource (db : DB) (title : String) (description : Option String)
    (filename : String) (file_type : String) (catField : String) :
    Option (DB × Resource) :=
  match parseNat? catField with
  | none => none
  | some i =>
      if db.categories.any (fun c => c.id == i) then
        let r : Resource :=
          ⟨db.nextResourceId, title, description, filename, file_type, i⟩
        some ({ db with
                  resources := db.resources ++ [r],
                  nextResourceId := db.nextResourceId + 1 },
              r)
      else none

/-- Terminal states of the upload workflow.  `missingField` is the flash
`'Tous les champs sont obligatoires.'`, `invalidExtension` the flash
`'Fichier invalide ou extension non autorisée.'`, `unsupportedType` the
flash `'Type de fichier non supporté.'`, `invalidReference` the
persistence layer rejecting the dangling category reference, and
`committed` the success flash with the created row. -/
inductive UploadResult where
  | missingField
  | invalidExtension
  | unsupportedType
  | invalidReference
  | committed (r : Resource)
deriving DecidableEq, Repr

/-- The `upload_resource` action (app.py lines 138–167): presence check,
extension check, classification, file save, then record insert.  The
file is written before the database insert, so a failed insert leaves
the saved file behind (the orphan-file limitation of §4.5). -/
def upload_resource (form : UploadForm) (st : AppState) :
    AppState × UploadResult :=
  if !(fieldsPresent form) then (st, .missingField)
  else
    match form.file with
    | none => (st, .invalidExtension)
    | some f =>
        if !(allowed_file f.filename) then (st, .invalidExtension)
        else
          match get_file_type_from_ext (lower (extAfterLastDot f.filename)) with
          | none => (st, .unsupportedType)
          | some ft =>
              match createResource st.db (form.title.getD "")
                  form.description (secure_filename f.filename) ft
                  (form.category.getD "") with
              | some (db', r) =>
                  (⟨db', saveFile st.storage (secure_filename f.filename)
                      f.content⟩, .committed r)
              | none =>
                  (⟨st.db, saveFile st.storage (secure_filename f.filename)
                      f.content⟩, .invalidReference)

/-! ## Resource deletion (app.py lines 179–192) -/

/-- Outcome of `POST /admin/delete/<id>`: redirect to the login page when
the session lacks the admin flag, a 404 when `get_or_404` finds no row,
or a completed deletion. -/
inductive DeleteResult where
  | redirectLogin
  | notFound
  | deleted
deriving DecidableEq, Repr

/-- `Resource.query.get(id)`: the row with the given primary key. -/
def lookupResource (db : DB) (rid : Nat) : Option Resource :=
  db.resources.find? (fun r => r.id == rid)

/-- The delete route: require the admin session flag, look the row up
(404 when absent), remove the backing file if it exists (tolerant of
absence), then delete the row and commit. -/
def delete_resource (sess : Session) (rid : Nat) (st : AppState) :
    AppState × DeleteResult :=
  if !sess.admin then (st, .redirectLogin)
  else
    match lookupResource st.db rid with
    | none => (st, .notFound)
    | some r =>
        let storage' := removeFile st.storage r.filename
        let db' := { st.db with
                       resources := st.db.resources.filter
                         (fun x => !(x.id == rid)) }
        (⟨db', storage'⟩, .deleted)

/-! ## The admin page (app.py lines 116–176) -/

/-- A request to `GET, POST /admin`: the method/`action` dispatch plus
the `type` query parameter used for the listing. -/
inductive AdminRequest where
  | get (typeFilter : Option String)
  | postCreateCategory (newCategory : String) (typeFilter : Option String)
  | postUpload (form : UploadForm) (typeFilter : Option String)
  | postOther (typeFilter : Option String)
deriving DecidableEq, Repr

/-- The `type` query parameter of a request. -/
def AdminRequest.typeFilterOf : AdminRequest → Option String
  | .get tf => tf
  | .postCreateCategory _ tf => tf
  | .postUpload _ tf => tf
  | .postOther tf => tf

/-- The admin listing (app.py lines 170–174): filter by `file_type` only
when the `type` parameter is exactly one of `pdf`, `image`, `video`;
any other value — including an absent parameter — is silently ignored
and the full list is returned. -/
def adminListing (db : DB) (tf : Option String) : List Resource :=
  match tf with
  | some t =>
      if (["pdf", "image", "video"] : List String).contains t then
        db.resources.filter (fun r => r.file_type == t)
      else db.resources
  | none => db.resources

/-- Outcome of a request to `/admin`: a redirect to the login page, or
the rendered page with the (possibly filtered) resource listing. -/
inductive AdminOutcome where
  | redirectLogin
  | page (resources : List Resource)
deriving DecidableEq, Repr

/-- The POST dispatch of the admin page (app.py lines 124–167): the
`create_category` and `upload_resource` actions mutate the state, a GET
or an unrecognized `action` changes nothing. -/
def adminPost (req : AdminRequest) (st : AppState) : AppState :=
  match req with
  | .get _ => st
  | .postCreateCategory raw _ => ⟨(create_category raw st.db).1, st.storage⟩
  | .postUpload form _ => (upload_resource form st).1
  | .postOther _ => st

/-- The `/admin` route: require the admin session flag (else redirect to
`/admin/login` with no state change), handle the POST action, then
render the listing filtered by the `type` parameter. -/
def admin (sess : Session) (req : AdminRequest) (st : AppState) :
    AppState × AdminOutcome :=
  if !sess.admin then (st, .redirectLogin)
  else
    let st' := adminPost req st
    (st', .page (adminListing st'.db req.typeFilterOf))

/-! ## Concrete sample states (used to instantiate the theorems) -/

/-- An empty uploads directory. -/
def emptyStorage : Storage := ⟨[]⟩

/-- The state right after `db.create_all()` on a fresh database. -/
def st0 : AppState := ⟨emptyDB, emptyStorage⟩

/-- The store after the first startup: the seeded default category. -/
def db1 : DB := ⟨[⟨1, "Général"⟩], [], 2, 1⟩

/-- A sample committed resource. -/
def r1 : Resource := ⟨1, "Report", none, "doc.pdf", "pdf", 1⟩

/-- A store holding the default category and the sample resource. -/
def dbR : DB := ⟨[⟨1, "Général"⟩], [r1], 2, 2⟩

/-- An application state holding `dbR` and the backing file of `r1`. -/
def stR : AppState := ⟨dbR, ⟨[("doc.pdf", 7)]⟩⟩

/-- A sample upload form whose category references no existing row of
`emptyDB`. -/
def form3 : UploadForm := ⟨some "T", none, some "99", some ⟨"a.pdf", 7⟩⟩

/-! ## Supporting lemmas -/

/-- After filtering out the rows with a given id, no row with that id is
found. -/
theorem find?_filter_id_none (l : List Resource) (rid : Nat) :
    (l.filter (fun x => !(x.id == rid))).find? (fun r => r.id == rid) =
      none := by
  rw [List.find?_eq_none]
  intro x hx
  have hkeep := (List.mem_filter.mp hx).2
  simp only [Bool.not_eq_true'] at hkeep
  simp [hkeep]

/-- After `removeFile`, the file is gone. -/
theorem hasFile_removeFile (st : Storage) (name : String) :
    hasFile (removeFile st name) name = false := by
  unfold hasFile removeFile
  simp only [List.any_eq_false]
  intro kv hkv
  have hkeep := (List.mem_filter.mp hkv).2
  simp only [Bool.not_eq_true'] at hkeep
  simp [hkeep]

/-- The admin listing ignores a `type` value outside
`{pdf, image, video}` (an absent parameter has `tf.getD "" = ""`,
also outside the set). -/
theorem adminListing_unknown (db : DB) (tf : Option String)
    (h : (["pdf", "image", "video"] : List String).contains (tf.getD "") =
      false) :
    adminListing db tf = db.resources := by
  unfold adminListing
  split
  · next t =>
      simp only [Option.getD_some] at h
      split
      · next hcond => rw [h] at hcond; exact (Bool.false_ne_true hcond).elim
      · rfl
  · rfl

/-- `createResource` fails exactly when the category reference is
invalid. -/
theorem createResource_none_of_invalid (db : DB) (t : String)
    (d : Option String) (fn ft cf : String)
    (h : categoryRefValid db cf = false) :
    createResource db t d fn ft cf = none := by
  unfold createResource
  unfold categoryRefValid at h
  split
  · rfl
  · next i hn =>
      rw [hn] at h
      have hf : db.categories.any (fun c => c.id == i) = false := h

      split
      · next hc => rw [hf] at hc; exact (Bool.false_ne_true hc).elim
      · rfl

/-- The bootstrap is the identity on any store that already holds a
category. -/
theorem bootstrap_nonempty_fixed (db : DB) (h : db.categories ≠ []) :
    bootstrap db = db := by
  have he : db.categories.isEmpty = false := by
    cases hc : db.categories with
    | nil => exact absurd hc h
    | cons a l => rfl
  unfold bootstrap
  rw [he]
  rfl

/-- Iterating the bootstrap after the first seeding changes nothing. -/
theorem bootstrap_iterate_seeded (m : Nat) :
    bootstrap^[m] (bootstrap emptyDB) = bootstrap emptyDB := by
  induction m with
  | zero => rfl
  | succ k ih =>
      rw [Function.iterate_succ_apply', ih,
        bootstrap_nonempty_fixed (bootstrap emptyDB) (by decide)]

/-- An authenticated delete of an unknown id is a 404 with no state
change. -/
theorem delete_resource_notFound (sess : Session) (st : AppState)
    (rid : Nat) (hauth : sess.admin = true)
    (h : lookupResource st.db rid = none) :
    delete_resource sess rid st = (st, .notFound) := by
  unfold delete_resource
  rw [hauth, h]
  rfl

/-- An authenticated delete of an existing row removes the row and its
backing file. -/
theorem delete_resource_found (sess : Session) (st : AppState)
    (rid : Nat) (r : Resource) (hauth : sess.admin = true)
    (h : lookupResource st.db rid = some r) :
    delete_resource sess rid st =
      (⟨{ st.db with resources :=
            st.db.resources.filter (fun x => !(x.id == rid)) },
        removeFile st.storage r.filename⟩, .deleted) := by
  unfold delete_resource
  rw [hauth, h]
  rfl

/-! ## Claim theorems -/

/-- C1: a filename is accepted by `allowed_file` exactly when it contains
a `'.'` and its lowercased suffix after the last `'.'` is classified by
the spec mapping (pdf ↦ pdf; jpg/jpeg/png/gif/webp ↦ image;
mp4/avi/mov/mkv/webm ↦ video), and `get_file_type_from_ext` agrees with
the spec mapping on the lowercased extension — in particular it returns
the matching media type on the recognized extensions and `None` on every
other extension, case-insensitively. -/
theorem allowed_file_and_classify_match_spec (filename ext : String) :
    allowed_file filename =
      (containsChar filename '.' &&
        (specClassify (lower (extAfterLastDot filename))).isSome) ∧
    get_file_type_from_ext ext = specClassify (lower ext) := by
  constructor
  · unfold allowed_file
    rw [contains_eq_specClassify_isSome]
  · rfl

/-- C6: `admin_login` with the supplied password equal to the configured
admin secret sets the session admin flag (and redirects to the admin
page); with any other supplied string it reports failure and leaves the
session — in particular an unset flag — unchanged. -/
theorem admin_login_sets_flag_iff_correct (secret supplied : String)
    (s : Session) :
    (supplied = secret →
      (admin_login secret supplied s).1.admin = true ∧
      (admin_login secret supplied s).2 = true) ∧
    (supplied ≠ secret → admin_login secret supplied s = (s, false)) := by
  constructor <;> intro h <;> simp [admin_login, h]

/-- Witness for C6 at the default configured secret. -/
theorem admin_login_sets_flag_iff_correct_witness :
    ((admin_login "@dmin123" "@dmin123" ⟨false⟩).1.admin = true ∧
      (admin_login "@dmin123" "@dmin123" ⟨false⟩).2 = true) ∧
    admin_login "@dmin123" "wrong" ⟨false⟩ = (⟨false⟩, false) :=
  ⟨(admin_login_sets_flag_iff_correct "@dmin123" "@dmin123" ⟨false⟩).1 rfl,
   (admin_login_sets_flag_iff_correct "@dmin123" "wrong" ⟨false⟩).2
     (by decide)⟩

/-- C7: with the session admin flag unset, both the admin page and the
delete endpoint redirect to the login page and change nothing: no
category is created, no resource is created or deleted, and no file is
written or removed. -/
theorem unauthenticated_redirects_no_change (sess : Session)
    (req : AdminRequest) (rid : Nat) (st : AppState)
    (h : sess.admin = false) :
    admin sess req st = (st, .redirectLogin) ∧
    delete_resource sess rid st = (st, .redirectLogin) := by
  unfold admin delete_resource
  simp [h]

/-- Witness for C7: an unauthenticated upload POST and delete. -/
theorem unauthenticated_redirects_no_change_witness :
    admin ⟨false⟩ (.postUpload form3 none) stR = (stR, .redirectLogin) ∧
    delete_resource ⟨false⟩ 1 stR = (stR, .redirectLogin) :=
  unauthenticated_redirects_no_change ⟨false⟩ (.postUpload form3 none) 1
    stR rfl

/-- C10: an admin-listing request whose `type` parameter is not one of
`pdf`, `image`, `video` — including an absent parameter — is silently
ignored: the full unfiltered resource list is rendered, never an
error. -/
theorem admin_listing_ignores_unknown_filter (sess : Session)
    (st : AppState) (tf : Option String) (hauth : sess.admin = true)
    (h : (["pdf", "image", "video"] : List String).contains (tf.getD "") =
      false) :
    admin sess (.get tf) st = (st, .page st.db.resources) := by
  unfold admin adminPost AdminRequest.typeFilterOf
  simp only [hauth, Bool.not_true, Bool.false_eq_true, if_false]
  rw [adminListing_unknown st.db tf h]

/-- Witness for C10 at the unknown filter value `docx`. -/
theorem admin_listing_ignores_unknown_filter_witness :
    admin ⟨true⟩ (.get (some "docx")) stR = (stR, .page stR.db.resources) :=
  admin_listing_ignores_unknown_filter ⟨true⟩ stR (some "docx") rfl
    (by decide)

/-- C2: when the title, the category or the file part of an upload
request is absent, the workflow terminates in `missingField` and the
state is unchanged — no resource row and no stored file. -/
theorem upload_missing_field_rejected (form : UploadForm) (st : AppState)
    (h : form.title = none ∨ form.category = none ∨ form.file = none) :
    upload_resource form st = (st, .missingField) := by
  have hf : fieldsPresent form = false := by
    rcases h with h | h | h <;>
      simp [fieldsPresent, h, truthyStr, truthyFile]
  unfold upload_resource
  rw [hf]
  rfl

/-- Witness for C2: an upload with no title. -/
theorem upload_missing_field_rejected_witness :
    upload_resource ⟨none, none, some "1", some ⟨"a.pdf", 7⟩⟩ st0 =
      (st0, .missingField) :=
  upload_missing_field_rejected ⟨none, none, some "1", some ⟨"a.pdf", 7⟩⟩
    st0 (Or.inl rfl)

/-- C8: the startup bootstrap creates the single default category only
when the store is empty; against a store that already holds a category
it changes nothing; hence after any number of startups against the same
store (starting fresh) at most one default category exists. -/
theorem bootstrap_seeds_once (db : DB) (n : Nat) :
    (db.categories = [] →
      (bootstrap db).categories = [⟨db.nextCategoryId, "Général"⟩]) ∧
    (db.categories ≠ [] → bootstrap db = db) ∧
    countDefault (bootstrap^[n] emptyDB) ≤ 1 := by
  refine ⟨?_, bootstrap_nonempty_fixed db, ?_⟩
  · intro h
    unfold bootstrap
    rw [h]
    rfl
  · cases n with
    | zero => decide
    | succ m =>
        rw [Function.iterate_succ_apply, bootstrap_iterate_seeded m]
        decide

/-- Witness for C8: seeding on the empty store, idempotence on a seeded
store, and the default-category count after three startups. -/
theorem bootstrap_seeds_once_witness :
    (bootstrap emptyDB).categories = [⟨1, "Général"⟩] ∧
    bootstrap db1 = db1 ∧
    countDefault (bootstrap^[3] emptyDB) ≤ 1 :=
  ⟨(bootstrap_seeds_once emptyDB 0).1 rfl,
   (bootstrap_seeds_once db1 0).2.1 (by decide),
   (bootstrap_seeds_once emptyDB 3).2.2⟩

/-- C9: the `unsupportedType` rejection is unreachable — for every
request and state the upload workflow never terminates in it, because a
filename that passes `allowed_file` always classifies successfully. -/
theorem upload_unsupported_unreachable (form : UploadForm)
    (st : AppState) :
    (upload_resource form st).2 ≠ .unsupportedType := by
  unfold upload_resource
  split
  · simp
  · split
    · simp
    · next f hf =>
        split
        · simp
        · next hall =>
            have hA : allowed_file f.filename = true := by
              simpa using hall
            have hc : ALLOWED_EXTENSIONS.contains
                (lower (extAfterLastDot f.filename)) = true := by
              simp only [allowed_file, Bool.and_eq_true] at hA
              exact hA.2
            split
            · next hnone => exact absurd hnone (classify_of_allowed _ hc)
            · next ft hft => split <;> simp

/-- C3: an upload whose category field references no existing category
never commits and leaves the database untouched (the saved file may
remain — the documented orphan-file limitation); when the request passes
the presence and extension checks, it terminates in `invalidReference`. -/
theorem upload_invalid_reference (form : UploadForm) (st : AppState)
    (href : categoryRefValid st.db (form.category.getD "") = false) :
    (upload_resource form st).1.db = st.db ∧
    (∀ r, (upload_resource form st).2 ≠ .committed r) ∧
    (fieldsPresent form = true →
      (∀ f, form.file = some f → allowed_file f.filename = true) →
      (upload_resource form st).2 = .invalidReference) := by
  unfold upload_resource
  split
  · next h =>
      refine ⟨rfl, fun r => by simp, fun hfp _ => ?_⟩
      have hff : fieldsPresent form = false := by simpa using h
      rw [hfp] at hff
      exact Bool.noConfusion hff
  · split
    · next hf =>
        refine ⟨rfl, fun r => by simp, fun hfp _ => ?_⟩
        simp [fieldsPresent, hf, truthyFile] at hfp
    · next f hf =>
        split
        · next h =>
            refine ⟨rfl, fun r => by simp, fun hfp hext => ?_⟩
            have hA : allowed_file f.filename = false := by simpa using h
            rw [hext f hf] at hA
            exact Bool.noConfusion hA
        · next hall =>
            have hA : allowed_file f.filename = true := by
              simpa using hall
            have hc : ALLOWED_EXTENSIONS.contains
                (lower (extAfterLastDot f.filename)) = true := by
              simp only [allowed_file, Bool.and_eq_true] at hA
              exact hA.2
            split
            · next hnone => exact absurd hnone (classify_of_allowed _ hc)
            · next ft hft =>
                rw [createResource_none_of_invalid st.db
                  (form.title.getD "") form.description
                  (secure_filename f.filename) ft (form.category.getD "")
                  href]
                exact ⟨rfl, fun r => by simp, fun _ _ => rfl⟩

/-- Witness for C3: an upload against the fresh store, whose category
field `"99"` references no category. -/
theorem upload_invalid_reference_witness :
    (upload_resource form3 st0).1.db = st0.db ∧
    (upload_resource form3 st0).2 = .invalidReference :=
  ⟨(upload_invalid_reference form3 st0 (by decide)).1,
   (upload_invalid_reference form3 st0 (by decide)).2.2 (by decide)
     (fun f hf => by injection hf with h; rw [← h]; decide)⟩

/-- C4: with an admin session, deleting an existing resource removes the
database row and the backing file (tolerating an already-absent file,
since `removeFile` never fails), and a delete of an id with no resource
— including a second delete of the same id — is a `notFound` that
changes nothing. -/
theorem delete_workflow_correct (sess : Session) (st : AppState)
    (rid : Nat) (hauth : sess.admin = true) :
    (lookupResource st.db rid = none →
      delete_resource sess rid st = (st, .notFound)) ∧
    (∀ r, lookupResource st.db rid = some r →
      (delete_resource sess rid st).2 = .deleted ∧
      lookupResource (delete_resource sess rid st).1.db rid = none ∧
      hasFile (delete_resource sess rid st).1.storage r.filename = false ∧
      delete_resource sess rid (delete_resource sess rid st).1 =
        ((delete_resource sess rid st).1, .notFound)) := by
  refine ⟨delete_resource_notFound sess st rid hauth, fun r hr => ?_⟩
  rw [delete_resource_found sess st rid r hauth hr]
  exact ⟨rfl, find?_filter_id_none _ _, hasFile_removeFile _ _,
    delete_resource_notFound sess _ rid hauth (find?_filter_id_none _ _)⟩

/-- Witness for C4 on `stR`: id 5 is unknown, id 1 exists. -/
theorem delete_workflow_correct_witness :
    delete_resource ⟨true⟩ 5 stR = (stR, .notFound) ∧
    ((delete_resource ⟨true⟩ 1 stR).2 = .deleted ∧
      lookupResource (delete_resource ⟨true⟩ 1 stR).1.db 1 = none ∧
      hasFile (delete_resource ⟨true⟩ 1 stR).1.storage r1.filename =
        false ∧
      delete_resource ⟨true⟩ 1 (delete_resource ⟨true⟩ 1 stR).1 =
        ((delete_resource ⟨true⟩ 1 stR).1, .notFound)) :=
  ⟨(delete_workflow_correct ⟨true⟩ stR 5 rfl).1 (by decide),
   (delete_workflow_correct ⟨true⟩ stR 1 rfl).2 r1 (by decide)⟩

/-- C5: a category-creation request with a name empty after stripping
whitespace fails (`invalidInput`) with the store unchanged; with a name
exactly matching an existing category it fails (`duplicateName`) with
the store unchanged; with a novel non-empty name it succeeds and the new
category appears in the subsequent category listing. -/
theorem create_category_spec (raw : String) (db : DB) :
    (strip raw = "" → create_category raw db = (db, .invalidInput)) ∧
    (strip raw ≠ "" → (∃ c ∈ db.categories, c.name = strip raw) →
      create_category raw db = (db, .duplicateName)) ∧
    (strip raw ≠ "" → (∀ c ∈ db.categories, c.name ≠ strip raw) →
      (create_category raw db).2 = .ok ⟨db.nextCategoryId, strip raw⟩ ∧
      ∃ c ∈ listCategories (create_category raw db).1,
        c.name = strip raw) := by
  refine ⟨?_, ?_, ?_⟩
  · intro h
    unfold create_category
    rw [if_pos h]
  · intro h1 hex
    obtain ⟨c, hc, hname⟩ := hex
    have hany : db.categories.any (fun c => c.name == strip raw) = true := by
      rw [List.any_eq_true]
      exact ⟨c, hc, by simp [hname]⟩
    unfold create_category
    rw [if_neg h1, if_pos hany]
  · intro h1 hall
    have hany : db.categories.any (fun c => c.name == strip raw) = false := by
      rw [List.any_eq_false]
      intro c hc
      simp [hall c hc]
    unfold create_category
    rw [if_neg h1, if_neg (by rw [hany]; exact Bool.false_ne_true)]
    exact ⟨rfl, ⟨db.nextCategoryId, strip raw⟩,
      by simp [listCategories], rfl⟩

/-- Witness for C5 against the seeded store: a whitespace name, the
duplicate of the default category, and a novel name. -/
theorem create_category_spec_witness :
    create_category "   " db1 = (db1, .invalidInput) ∧
    create_category " Général " db1 = (db1, .duplicateName) ∧
    ((create_category "Docs" db1).2 = .ok ⟨2, "Docs"⟩ ∧
      ∃ c ∈ listCategories (create_category "Docs" db1).1,
        c.name = strip "Docs") :=
  ⟨(create_category_spec "   " db1).1 (by decide),
   (create_category_spec " Général " db1).2.1 (by decide) (by decide),
   (create_category_spec "Docs" db1).2.2 (by decide) (by decide)⟩

end Bangre
